import Mathlib

/-!
Verification of the panchangam engine of `numerology_app`
(`backend/numerology_app/panchangam/core.py` and
`backend/numerology_app/festivals/rules.py`).

Python floats are modelled as rational numbers `ℚ`, instants as rational
hour offsets, Python `int()` truncation and the float `%` operator as
explicit functions below.  String processing in the festival rule
evaluator is modelled over `List Char`.  The sunrise/sunset instants and
the weekday that the Python functions obtain from the ephemeris provider
and from `date_obj.weekday()` are passed as explicit parameters, since the
provider is an external collaborator.
-/

namespace Astroo

/-- Floor of a rational, computable by the kernel (`⌊q⌋`). -/
def ratFloor (q : ℚ) : ℤ := q.num / q.den

/-- Python `int()` applied to a float: truncation toward zero. -/
def pyInt (q : ℚ) : ℤ :=
  if 0 ≤ q then ratFloor q else -ratFloor (-q)

/-- Python float `%` operator: `x % m = x - m * floor(x / m)` (the result
takes the sign of the divisor). -/
def pyMod (x m : ℚ) : ℚ :=
  x - m * (ratFloor (x / m) : ℚ)

/-! ## Constants from `panchangam/core.py` -/

/-- `TITHI_DURATION = 12.0` — degrees per tithi. -/
def TITHI_DURATION : ℚ := 12

/-- `NAKSHATRA_DURATION = 13.333333` — the literal from the source (note
that this is not exactly `360 / 27`). -/
def NAKSHATRA_DURATION : ℚ := 13333333 / 1000000

/-- The 11 karana names of `KARANAS` in `core.py`. -/
def KARANAS : List String :=
  ["Bava", "Balava", "Kaulava", "Taitila", "Garija", "Vanija", "Vishti",
   "Shakuni", "Chatushpada", "Naga", "Kimstughna"]

/-- Default string for list indexing (`KARANAS[i]` in Python raises on an
out-of-range index; the default is never used at in-range indices). -/
def strDefault : String := ""

/-! ## Angular element resolver (`core.py`) -/

/-- `compute_tithi(sun_long, moon_long)`:
`tithi_diff = (moon_long - sun_long) % 360`; `tithi_raw = tithi_diff / TITHI_DURATION`;
returns `(int(tithi_raw) + 1, tithi_raw - int(tithi_raw))`. -/
def compute_tithi (sun_long moon_long : ℚ) : ℤ × ℚ :=
  let tithi_diff := pyMod (moon_long - sun_long) 360
  let tithi_raw := tithi_diff / TITHI_DURATION
  let tithi_number := pyInt tithi_raw + 1
  let tithi_progress := tithi_raw - (pyInt tithi_raw : ℚ)
  (tithi_number, tithi_progress)

/-- `compute_nakshatra(moon_long)`:
`nakshatra_raw = moon_long / NAKSHATRA_DURATION`; returns
`(int(raw) + 1, raw - int(raw))`. -/
def compute_nakshatra (moon_long : ℚ) : ℤ × ℚ :=
  let nakshatra_raw := moon_long / NAKSHATRA_DURATION
  let nakshatra_number := pyInt nakshatra_raw + 1
  let nakshatra_progress := nakshatra_raw - (pyInt nakshatra_raw : ℚ)
  (nakshatra_number, nakshatra_progress)

/-- `compute_yoga(sun_long, moon_long)`:
`yoga_sum = (sun_long + moon_long) % 360`; `yoga_raw = yoga_sum / NAKSHATRA_DURATION`;
returns `(int(raw) + 1, raw - int(raw))`. -/
def compute_yoga (sun_long moon_long : ℚ) : ℤ × ℚ :=
  let yoga_sum := pyMod (sun_long + moon_long) 360
  let yoga_raw := yoga_sum / NAKSHATRA_DURATION
  let yoga_number := pyInt yoga_raw + 1
  let yoga_progress := yoga_raw - (pyInt yoga_raw : ℚ)
  (yoga_number, yoga_progress)

/-- `compute_karana(tithi_number, tithi_progress)`:
`karana_index = int(tithi_progress * 2)`; tithis `1,6,11,16,21,26` map to
`KARANAS[8]`/`KARANAS[9]`, tithis `2,7,12,17,22,27` map to
`KARANAS[9]`/`KARANAS[10]`, and every other tithi maps to
`KARANAS[karana_index % 7]`. -/
def compute_karana (tithi_number : ℤ) (tithi_progress : ℚ) : String × ℚ :=
  let karana_index := pyInt (tithi_progress * 2)
  let karana_name :=
    if tithi_number ∈ ([1, 6, 11, 16, 21, 26] : List ℤ) then
      if karana_index = 0 then KARANAS.getD 8 strDefault else KARANAS.getD 9 strDefault
    else if tithi_number ∈ ([2, 7, 12, 17, 22, 27] : List ℤ) then
      if karana_index = 0 then KARANAS.getD 9 strDefault else KARANAS.getD 10 strDefault
    else
      KARANAS.getD (karana_index % 7).toNat strDefault
  let karana_progress := tithi_progress * 2 - (karana_index : ℚ)
  (karana_name, karana_progress)

/-! ## Daylight partitioner (`core.py`) -/

/-- A start/end pair of instants (modelled as rational hour offsets). -/
structure TimeInterval where
  start : ℚ
  stop : ℚ
deriving DecidableEq

/-- `rahu_periods` from `compute_rahu_yama_gulikai`: per-weekday
`(start_hour, end_hour)` offsets from sunrise, Monday first. -/
def rahu_periods : List (ℚ × ℚ) :=
  [(8, 9.5), (3, 4.5), (12, 13.5), (1.5, 3), (10.5, 12), (9, 10.5), (4.5, 6)]

/-- `yama_periods` from `compute_rahu_yama_gulikai`. -/
def yama_periods : List (ℚ × ℚ) :=
  [(3, 4.5), (12, 13.5), (1.5, 3), (10.5, 12), (9, 10.5), (4.5, 6), (8, 9.5)]

/-- `gulikai_periods` from `compute_rahu_yama_gulikai`. -/
def gulikai_periods : List (ℚ × ℚ) :=
  [(12, 13.5), (1.5, 3), (10.5, 12), (9, 10.5), (4.5, 6), (8, 9.5), (3, 4.5)]

/-- Result record of `compute_rahu_yama_gulikai`. -/
structure RahuYamaGulikai where
  rahu_kalam : TimeInterval
  yama_gandam : TimeInterval
  gulikai_kalam : TimeInterval
deriving DecidableEq

/-- The inner helper `get_time_from_period(start_hour, end_hour)`:
`(sunrise + timedelta(hours=start_hour), sunrise + timedelta(hours=end_hour))`. -/
def get_time_from_period (sunrise : ℚ) (period : ℚ × ℚ) : TimeInterval :=
  ⟨sunrise + period.1, sunrise + period.2⟩

/-- `compute_rahu_yama_gulikai(date_obj, lat, lon, tz)` after the
`get_sunrise_sunset` call: `weekday = date_obj.weekday()` (Monday = 0),
and each period is `get_time_from_period(*table[weekday])`.  The source
also computes `day_duration`/`day_hours` but never uses them. -/
def compute_rahu_yama_gulikai (sunrise sunset : ℚ) (weekday : Fin 7) : RahuYamaGulikai :=
  let _day_duration := sunset - sunrise
  { rahu_kalam := get_time_from_period sunrise (rahu_periods.getD weekday.val (0, 0)),
    yama_gandam := get_time_from_period sunrise (yama_periods.getD weekday.val (0, 0)),
    gulikai_kalam := get_time_from_period sunrise (gulikai_periods.getD weekday.val (0, 0)) }

/-- The fixed 7-planet sequence of `compute_hora`. -/
def planets : List String :=
  ["Sun", "Venus", "Mercury", "Moon", "Saturn", "Jupiter", "Mars"]

/-- One entry of the list returned by `compute_hora`. -/
structure Hora where
  hora_number : ℕ
  planet : String
  start : ℚ
  stop : ℚ
  duration : ℚ
deriving DecidableEq

/-- Default `Hora` used only for out-of-range `getD` indexing. -/
def dHora : Hora := ⟨0, strDefault, 0, 0, 0⟩

/-- The `for i in range(12)` loop of `compute_hora`: `rem` counts the
remaining iterations, `current_time` and `i` are the loop state. -/
def horaLoop (hora_duration : ℚ) : ℕ → ℚ → ℕ → List Hora
  | 0, _, _ => []
  | rem + 1, current_time, i =>
    { hora_number := i + 1,
      planet := planets.getD (i % 7) strDefault,
      start := current_time,
      stop := current_time + hora_duration,
      duration := hora_duration } ::
      horaLoop hora_duration rem (current_time + hora_duration) (i + 1)

/-- `compute_hora(date_obj, lat, lon, tz)` after the `get_sunrise_sunset`
call: `hora_duration = (sunset - sunrise) / 12`, then the 12-iteration
loop appending contiguous intervals. -/
def compute_hora (sunrise sunset : ℚ) : List Hora :=
  let day_duration := sunset - sunrise
  let hora_duration := day_duration / 12
  horaLoop hora_duration 12 sunrise 0

/-- Result record of `compute_gowri_nalla`. -/
structure GowriPanchangam where
  periods : List (String × ℚ × ℚ)
  auspicious : List String
  inauspicious : List String

/-- Default entry used only for out-of-range `getD` indexing into the
Gowri period list. -/
def dGP : String × ℚ × ℚ := (strDefault, 0, 0)

/-- `compute_gowri_nalla(date_obj, lat, lon, tz)` after the
`get_sunrise_sunset` call: the `gowri_periods` dict literal (insertion
order preserved) of fixed `timedelta` offsets from sunrise, plus the
fixed auspicious/inauspicious name lists.  The source also computes
`day_duration`/`day_hours` but never uses them. -/
def compute_gowri_nalla (sunrise sunset : ℚ) : GowriPanchangam :=
  let _day_duration := sunset - sunrise
  { periods :=
      [("amrutha", sunrise + 6, sunrise + 7.5),
       ("siddha", sunrise + 7.5, sunrise + 9),
       ("marana", sunrise + 9, sunrise + 10.5),
       ("rogam", sunrise + 10.5, sunrise + 12),
       ("laabha", sunrise + 12, sunrise + 13.5),
       ("dhanam", sunrise + 13.5, sunrise + 15),
       ("sugam", sunrise + 15, sunrise + 16.5),
       ("kantaka", sunrise + 16.5, sunrise + 18)],
    auspicious := ["amrutha", "siddha", "laabha", "dhanam", "sugam"],
    inauspicious := ["marana", "rogam", "kantaka"] }

/-! ## Festival condition language (`festivals/rules.py`)

Python string primitives are modelled over `List Char`. -/

/-- Python whitespace test used by `str.strip()` / `str.split()`. -/
def isSpace (c : Char) : Bool :=
  c == ' ' || c == '\t' || c == '\n' || c == '\r'

/-- Python `str.strip()`. -/
def pyStrip (l : List Char) : List Char :=
  ((l.dropWhile isSpace).reverse.dropWhile isSpace).reverse

/-- Python `str.lower()` (the rule strings are ASCII). -/
def pyLower (l : List Char) : List Char :=
  l.map Char.toLower

/-- Python `sub in s` substring containment. -/
def containsSub : List Char → List Char → Bool
  | [], sub => sub.isEmpty
  | c :: cs, sub => sub.isPrefixOf (c :: cs) || containsSub cs sub

/-- Worker for Python `s.split(sep)` (nonempty `sep`), left-to-right on
non-overlapping occurrences; `fuel` dominates the length of the input so
the final case is never reached. -/
def pySplitAux (sep : List Char) : ℕ → List Char → List Char → List (List Char)
  | 0, l, acc => [acc.reverse ++ l]
  | fuel + 1, l, acc =>
    match l with
    | [] => [acc.reverse]
    | c :: cs =>
      bif sep.isPrefixOf (c :: cs) then
        acc.reverse :: pySplitAux sep fuel (List.drop (sep.length - 1) cs) []
      else
        pySplitAux sep fuel cs (c :: acc)

/-- Python `s.split(sep)` for a nonempty separator. -/
def pySplit (l sep : List Char) : List (List Char) :=
  pySplitAux sep (l.length + 1) l []

/-- Worker for Python `s.split()` (split on whitespace runs, dropping
empty parts). -/
def pySplitWsAux : List Char → List Char → List (List Char)
  | [], acc => bif acc.isEmpty then [] else [acc.reverse]
  | c :: cs, acc =>
    bif isSpace c then
      bif acc.isEmpty then pySplitWsAux cs [] else acc.reverse :: pySplitWsAux cs []
    else
      pySplitWsAux cs (c :: acc)

/-- Python `s.split()` with no separator argument. -/
def pySplitWs (l : List Char) : List (List Char) :=
  pySplitWsAux l []

/-- The part of `s.split(sep, 1)` before the first occurrence of the
one-character separator (the whole string when absent). -/
def splitOnceLeft : List Char → Char → List Char
  | [], _ => []
  | c :: cs, sep => bif c == sep then [] else c :: splitOnceLeft cs sep

/-- The part of `s.split(sep, 1)` after the first occurrence of the
one-character separator (empty when absent; the source only uses it under
an `'=' in condition` guard). -/
def splitOnceRight : List Char → Char → List Char
  | [], _ => []
  | c :: cs, sep => bif c == sep then cs else splitOnceRight cs sep

/-- Digit accumulator for `pyParseInt`. -/
def parseDigitsAux : List Char → ℕ → Option ℕ
  | [], acc => some acc
  | c :: cs, acc =>
    bif c.isDigit then parseDigitsAux cs (acc * 10 + (c.toNat - 48)) else none

/-- All-digit string to number, `none` when empty or non-digit. -/
def parseDigits (ds : List Char) : Option ℕ :=
  bif ds.isEmpty then none else parseDigitsAux ds 0

/-- Python `int(s)`: optional sign then digits; `none` models the
`ValueError` that the callers catch. -/
def pyParseInt (l : List Char) : Option ℤ :=
  match pyStrip l with
  | '-' :: ds => (parseDigits ds).map (fun n => -(n : ℤ))
  | '+' :: ds => (parseDigits ds).map (fun n => (n : ℤ))
  | ds => (parseDigits ds).map (fun n => (n : ℤ))

/-- The fields of the assembled panchangam dict that
`FestivalRuleEvaluator` reads (tithi/nakshatra/yoga/karana entries). -/
structure Panchangam where
  tithi_number : ℤ
  tithi_name : List Char
  nakshatra_number : ℤ
  yoga_number : ℤ
  karana_name : List Char
deriving DecidableEq

/-- Keys of `self.special_periods` in `FestivalRuleEvaluator.__init__`. -/
def special_period_names : List (List Char) :=
  [("pradosha_kala").data, ("brahma_muhurta").data, ("amavasya").data,
   ("purnima").data, ("ekadashi").data]

/-- Dispatch of `self.special_periods[condition](panchangam, date_obj)`:
`_is_pradosha_kala` (tithi 13), `_is_brahma_muhurta` (always true),
`_is_amavasya` (tithi 30), `_is_purnima` (tithi 15), `_is_ekadashi`
(tithi 11 or 26). -/
def eval_special_period (condition : List Char) (p : Panchangam) : Bool :=
  bif condition == ("pradosha_kala").data then p.tithi_number == 13
  else bif condition == ("brahma_muhurta").data then true
  else bif condition == ("amavasya").data then p.tithi_number == 30
  else bif condition == ("purnima").data then p.tithi_number == 15
  else bif condition == ("ekadashi").data then
    p.tithi_number == 11 || p.tithi_number == 26
  else false

/-- `_check_tithi_condition(condition, panchangam)`: two-part conditions
like `14 krishna` compare number and paksha substring of the tithi name;
otherwise a bare number comparison; `int()` failures yield `False`. -/
def check_tithi_condition (condition : List Char) (p : Panchangam) : Bool :=
  match pySplitWs condition with
  | [number_str, paksha] =>
    (match pyParseInt number_str with
     | none => false
     | some target_number =>
       let target_paksha := pyLower paksha
       bif target_paksha == ("shukla").data then
         (p.tithi_number == target_number) &&
           containsSub (pyLower p.tithi_name) (("shukla").data)
       else bif target_paksha == ("krishna").data then
         (p.tithi_number == target_number + 15) &&
           containsSub (pyLower p.tithi_name) (("krishna").data)
       else p.tithi_number == target_number)
  | _ =>
    match pyParseInt condition with
    | none => false
    | some target_number => p.tithi_number == target_number

/-- `_check_nakshatra_condition`. -/
def check_nakshatra_condition (condition : List Char) (p : Panchangam) : Bool :=
  match pyParseInt condition with
  | none => false
  | some target_number => p.nakshatra_number == target_number

/-- `_check_yoga_condition`. -/
def check_yoga_condition (condition : List Char) (p : Panchangam) : Bool :=
  match pyParseInt condition with
  | none => false
  | some target_number => p.yoga_number == target_number

/-- `_check_karana_condition`: case-insensitive name equality. -/
def check_karana_condition (condition : List Char) (p : Panchangam) : Bool :=
  pyLower p.karana_name == pyLower condition

/-- The `weekdays` name table of `_check_weekday_condition`. -/
def weekday_names : List (List Char × ℕ) :=
  [(("monday").data, 0), (("tuesday").data, 1), (("wednesday").data, 2),
   (("thursday").data, 3), (("friday").data, 4), (("saturday").data, 5),
   (("sunday").data, 6)]

/-- `_check_weekday_condition(condition, date_obj)`: dictionary lookup
with `-1` default, then weekday equality. -/
def check_weekday_condition (condition : List Char) (weekday : ℕ) : Bool :=
  match weekday_names.find? (fun kv => kv.1 == pyLower condition) with
  | none => false
  | some kv => weekday == kv.2

/-- The five recognised field names of `_evaluate_atomic_condition`. -/
def known_field_names : List (List Char) :=
  [("tithi").data, ("nakshatra").data, ("yoga").data, ("karana").data,
   ("weekday").data]

/-- `_evaluate_atomic_condition(condition, panchangam, date_obj)`:
special-period lookup first, then `field=value` dispatch on the five
known fields, and `False` for everything else. -/
def evaluate_atomic_condition (condition0 : List Char) (p : Panchangam)
    (weekday : ℕ) : Bool :=
  let condition := pyStrip condition0
  bif special_period_names.contains condition then
    eval_special_period condition p
  else bif condition.contains '=' then
    let left := pyStrip (splitOnceLeft condition '=')
    let right := pyStrip (splitOnceRight condition '=')
    bif left == ("tithi").data then check_tithi_condition right p
    else bif left == ("nakshatra").data then check_nakshatra_condition right p
    else bif left == ("yoga").data then check_yoga_condition right p
    else bif left == ("karana").data then check_karana_condition right p
    else bif left == ("weekday").data then check_weekday_condition right weekday
    else false
  else false

/-- `_parse_logical_expression(expr, panchangam, date_obj)`: strip, then
in order: a leading `!` negates the recursive evaluation of the rest; an
expression wrapped in `(` … `)` recurses on the inside; an expression
containing `' & '` is the conjunction over its split parts; one containing
`' | '` is the disjunction; otherwise atomic evaluation.  `fuel` dominates
the string length, so the `0` case is never reached from
`evaluate_condition`. -/
def parse_logical_expression (p : Panchangam) (weekday : ℕ) :
    ℕ → List Char → Bool
  | 0, _ => false
  | fuel + 1, expr0 =>
    let expr := pyStrip expr0
    bif List.isPrefixOf (("!").data) expr then
      !(parse_logical_expression p weekday fuel (pyStrip (expr.drop 1)))
    else bif List.isPrefixOf (("(").data) expr &&
        List.isSuffixOf ((")").data) expr then
      parse_logical_expression p weekday fuel (pyStrip ((expr.drop 1).dropLast))
    else bif containsSub expr ((" & ").data) then
      (pySplit expr ((" & ").data)).all
        (fun part => parse_logical_expression p weekday fuel (pyStrip part))
    else bif containsSub expr ((" | ").data) then
      (pySplit expr ((" | ").data)).any
        (fun part => parse_logical_expression p weekday fuel (pyStrip part))
    else evaluate_atomic_condition expr p weekday

/-- `_evaluate_condition(condition, panchangam, date_obj)`:
`condition.strip().lower()` then logical parsing. -/
def evaluate_condition (condition : List Char) (p : Panchangam)
    (weekday : ℕ) : Bool :=
  let c := pyLower (pyStrip condition)
  parse_logical_expression p weekday (c.length + 1) c

/-- `FestivalRuleEvaluator.evaluate_rule`: the `assemble_panchangam` call
may fail (modelled as `Except.error`), in which case the surrounding
`try`/`except` returns `False`; otherwise the condition is evaluated
against the assembled record. -/
def evaluate_rule (panchangam : Except String Panchangam)
    (condition : List Char) (weekday : ℕ) : Bool :=
  match panchangam with
  | Except.error _ => false
  | Except.ok p => evaluate_condition condition p weekday

/-- A concrete assembled day used in concrete evaluations: tithi 7
(Shukla 7). -/
def sample_day : Panchangam :=
  { tithi_number := 7, tithi_name := ("Shukla 7").data,
    nakshatra_number := 1, yoga_number := 1, karana_name := ("Bava").data }

/-! ## Helper lemmas -/

/-- `ratFloor` agrees with the mathematical floor. -/
theorem ratFloor_eq (q : ℚ) : ratFloor q = ⌊q⌋ :=
  (Rat.floor_def).symm

/-- Every interval produced by the hora loop has `stop ≤ start` when the
per-hora duration is nonpositive. -/
theorem horaLoop_degenerate (d : ℚ) (hd : d ≤ 0) :
    ∀ (rem : ℕ) (t : ℚ) (i : ℕ),
      ((horaLoop d rem t i).all fun hh => decide (hh.stop ≤ hh.start)) = true := by
  intro rem
  induction rem with
  | zero => intro t i; rfl
  | succ n ih =>
    intro t i
    simp only [horaLoop, List.all_cons, Bool.and_eq_true, decide_eq_true_eq]
    exact ⟨by linarith, ih (t + d) (i + 1)⟩

/-! ## Claim theorems -/

/-- C1: evaluation at the failing input.  The moon longitude
`359.999995` lies in `[0, 360)`, yet `compute_nakshatra` returns index 28
and `compute_yoga` (with sun longitude 0) returns index 28, outside the
documented `[1, 27]` range — because `NAKSHATRA_DURATION = 13.333333` is
slightly less than `360 / 27`. -/
theorem nakshatra_yoga_index_escape :
    (0 : ℚ) ≤ 359999995 / 1000000 ∧ (359999995 : ℚ) / 1000000 < 360 ∧
    (compute_nakshatra (359999995 / 1000000)).1 = 28 ∧
    (compute_yoga 0 (359999995 / 1000000)).1 = 28 := by
  with_unfolding_all decide

/-- C2 counterexample: on a Wednesday (weekday 2) with sunrise 6 h and
sunset 16 h, Rahu Kalam is `[18, 19.5]`: its end lies after sunset (so it
is not one of the eight daylight segments, all of which end by sunset)
and its span is 1.5 h, not `(16 - 6) / 8` h. -/
theorem rahu_kalam_outside_daylight :
    (compute_rahu_yama_gulikai 6 16 2).rahu_kalam = ⟨18, 19.5⟩ ∧
    ¬ ((19.5 : ℚ) ≤ 16) ∧ (19.5 : ℚ) - 18 ≠ (16 - 6) / 8 := by
  with_unfolding_all decide

/-- C2 amended: each of the three periods is the fixed clock-offset
interval `[sunrise + a_w, sunrise + b_w]` given by the per-weekday tables,
always spanning exactly 1.5 hours independent of the day length. -/
theorem ryg_fixed_clock_offsets (sunrise sunset : ℚ) (w : Fin 7) :
    (compute_rahu_yama_gulikai sunrise sunset w).rahu_kalam.start
        = sunrise + (rahu_periods.getD w.val (0, 0)).1 ∧
    (compute_rahu_yama_gulikai sunrise sunset w).rahu_kalam.stop
        = sunrise + (rahu_periods.getD w.val (0, 0)).2 ∧
    (compute_rahu_yama_gulikai sunrise sunset w).yama_gandam.start
        = sunrise + (yama_periods.getD w.val (0, 0)).1 ∧
    (compute_rahu_yama_gulikai sunrise sunset w).yama_gandam.stop
        = sunrise + (yama_periods.getD w.val (0, 0)).2 ∧
    (compute_rahu_yama_gulikai sunrise sunset w).gulikai_kalam.start
        = sunrise + (gulikai_periods.getD w.val (0, 0)).1 ∧
    (compute_rahu_yama_gulikai sunrise sunset w).gulikai_kalam.stop
        = sunrise + (gulikai_periods.getD w.val (0, 0)).2 ∧
    (compute_rahu_yama_gulikai sunrise sunset w).rahu_kalam.stop
        - (compute_rahu_yama_gulikai sunrise sunset w).rahu_kalam.start = 1.5 ∧
    (compute_rahu_yama_gulikai sunrise sunset w).yama_gandam.stop
        - (compute_rahu_yama_gulikai sunrise sunset w).yama_gandam.start = 1.5 ∧
    (compute_rahu_yama_gulikai sunrise sunset w).gulikai_kalam.stop
        - (compute_rahu_yama_gulikai sunrise sunset w).gulikai_kalam.start = 1.5 := by
  have hr : (rahu_periods.getD w.val (0, 0)).2
      - (rahu_periods.getD w.val (0, 0)).1 = 1.5 := by
    fin_cases w <;> with_unfolding_all decide
  have hy : (yama_periods.getD w.val (0, 0)).2
      - (yama_periods.getD w.val (0, 0)).1 = 1.5 := by
    fin_cases w <;> with_unfolding_all decide
  have hg : (gulikai_periods.getD w.val (0, 0)).2
      - (gulikai_periods.getD w.val (0, 0)).1 = 1.5 := by
    fin_cases w <;> with_unfolding_all decide
  refine ⟨rfl, rfl, rfl, rfl, rfl, rfl, ?_, ?_, ?_⟩
  · show sunrise + (rahu_periods.getD w.val (0, 0)).2
        - (sunrise + (rahu_periods.getD w.val (0, 0)).1) = 1.5
    linarith
  · show sunrise + (yama_periods.getD w.val (0, 0)).2
        - (sunrise + (yama_periods.getD w.val (0, 0)).1) = 1.5
    linarith
  · show sunrise + (gulikai_periods.getD w.val (0, 0)).2
        - (sunrise + (gulikai_periods.getD w.val (0, 0)).1) = 1.5
    linarith

/-- C3: evaluation at the failing input.  At tithi 3 with progress 0 the
code returns `KARANAS[int(0 * 2) % 7] = "Bava"`, ignoring the tithi
index, while the moving-cycle formula `(2*(index-1) + slot) mod 7` of the
claim selects `KARANAS[4] = "Garija"`. -/
theorem karana_ignores_tithi_index :
    (compute_karana 3 0).1 = ("Bava") ∧
    KARANAS.getD ((2 * (3 - 1) + 0) % 7) strDefault = ("Garija") ∧
    ("Bava") ≠ ("Garija") := by
  with_unfolding_all decide

/-- C4 counterexample: with sunrise = sunset = 0 (no positive daylight),
`compute_hora` does not fail: it returns 12 intervals, every one of them
zero-length. -/
theorem hora_degenerate_without_error :
    (compute_hora 0 0).length = 12 ∧
    ((compute_hora 0 0).all fun hh => decide (hh.start = hh.stop)) = true := by
  with_unfolding_all decide

/-- C4 amended: the partitioning functions perform no daylight check and
raise no error.  When sunset ≤ sunrise, `compute_hora` still returns 12
intervals, each of nonpositive length, and `compute_rahu_yama_gulikai`
still returns its fixed 1.5-hour offsets from sunrise. -/
theorem partitioners_lack_daylight_check (sunrise sunset : ℚ)
    (h : sunset ≤ sunrise) :
    (compute_hora sunrise sunset).length = 12 ∧
    ((compute_hora sunrise sunset).all fun hh => decide (hh.stop ≤ hh.start)) = true ∧
    (compute_rahu_yama_gulikai sunrise sunset 0).rahu_kalam.stop
      - (compute_rahu_yama_gulikai sunrise sunset 0).rahu_kalam.start = 1.5 := by
  have hd : (sunset - sunrise) / 12 ≤ 0 := by
    apply div_nonpos_of_nonpos_of_nonneg <;> linarith
  refine ⟨rfl, horaLoop_degenerate _ hd 12 sunrise 0, ?_⟩
  show sunrise + (rahu_periods.getD (0 : Fin 7).val (0, 0)).2
      - (sunrise + (rahu_periods.getD (0 : Fin 7).val (0, 0)).1) = 1.5
  have h15 : (rahu_periods.getD (0 : Fin 7).val (0, 0)).2
      - (rahu_periods.getD (0 : Fin 7).val (0, 0)).1 = 1.5 := by
    with_unfolding_all decide
  linarith

/-- C4 witness: the amended theorem applied at sunrise 1, sunset 0. -/
theorem partitioners_lack_daylight_check_witness :
    (compute_hora 1 0).length = 12 ∧
    ((compute_hora 1 0).all fun hh => decide (hh.stop ≤ hh.start)) = true ∧
    (compute_rahu_yama_gulikai 1 0 0).rahu_kalam.stop
      - (compute_rahu_yama_gulikai 1 0 0).rahu_kalam.start = 1.5 :=
  partitioners_lack_daylight_check 1 0 zero_le_one

/-- C5 counterexample: with sunrise 6 h and sunset 18 h, the first Gowri
period starts at 12 h, not at sunrise, so the eight periods do not
partition the sunrise–sunset interval. -/
theorem gowri_first_period_misses_sunrise :
    ((compute_gowri_nalla 6 18).periods.getD 0 dGP).2.1 = 12 ∧ ((12 : ℚ) ≠ 6) := by
  with_unfolding_all decide

/-- C5 amended: the eight Gowri periods are consecutive 1.5-hour blocks
covering `[sunrise + 6, sunrise + 18]`: the first starts at sunrise + 6 h
(not at sunrise), the last ends at sunrise + 18 h (not at sunset),
consecutive periods share endpoints, and the auspicious name set is
disjoint from the inauspicious name set. -/
theorem gowri_fixed_offset_structure (sunrise sunset : ℚ) :
    (compute_gowri_nalla sunrise sunset).periods.length = 8 ∧
    ((compute_gowri_nalla sunrise sunset).periods.getD 0 dGP).2.1 = sunrise + 6 ∧
    ((compute_gowri_nalla sunrise sunset).periods.getD 7 dGP).2.2 = sunrise + 18 ∧
    (∀ i : ℕ, i < 7 →
      ((compute_gowri_nalla sunrise sunset).periods.getD i dGP).2.2
        = ((compute_gowri_nalla sunrise sunset).periods.getD (i + 1) dGP).2.1) ∧
    ((compute_gowri_nalla sunrise sunset).auspicious.all
        fun n => !((compute_gowri_nalla sunrise sunset).inauspicious.contains n)) = true := by
  refine ⟨rfl, rfl, rfl, ?_, rfl⟩
  intro i hi
  interval_cases i <;> rfl

/-- C5 witness: contiguity of the amended theorem at sunrise 0,
sunset 10, periods 2 and 3. -/
theorem gowri_fixed_offset_structure_witness :
    ((compute_gowri_nalla 0 10).periods.getD 2 dGP).2.2
      = ((compute_gowri_nalla 0 10).periods.getD 3 dGP).2.1 :=
  (gowri_fixed_offset_structure 0 10).2.2.2.1 2 (by decide)

/-- C6 counterexample: against a day with tithi 7, the condition
`!tithi=5 & tithi=6` evaluates to `true` (the leading `!` negates the
whole conjunction, which is false), while NOT-binds-tighter reading
`(!tithi=5) & tithi=6` is `false`. -/
theorem not_operator_precedence_counterexample :
    parse_logical_expression sample_day 0 40 (("!tithi=5 & tithi=6").data) = true ∧
    ((!(evaluate_atomic_condition (("tithi=5").data) sample_day 0)) &&
      evaluate_atomic_condition (("tithi=6").data) sample_day 0) = false := by
  decide

/-- C6 amended: a leading `!` negates the entire remaining expression,
because the parser tests for a leading `!` before splitting on `' & '`:
for every panchangam record, `!A & B` with atomic tithi conditions
evaluates as NOT (A AND B). -/
theorem leading_bang_negates_whole (p : Panchangam) (weekday : ℕ) :
    parse_logical_expression p weekday 40 (("!tithi=5 & tithi=6").data) =
      !(evaluate_atomic_condition (("tithi=5").data) p weekday &&
        evaluate_atomic_condition (("tithi=6").data) p weekday) := by
  have h : parse_logical_expression p weekday 40 (("!tithi=5 & tithi=6").data) =
      !(evaluate_atomic_condition (("tithi=5").data) p weekday &&
        (evaluate_atomic_condition (("tithi=6").data) p weekday && true)) := rfl
  rw [h, Bool.and_true]

/-- C7: when the moon–sun separation is an exact multiple of 360°,
`compute_tithi` returns index 1 with progress 0. -/
theorem tithi_at_new_moon (sun_long moon_long : ℚ)
    (h : ∃ k : ℤ, moon_long - sun_long = 360 * k) :
    compute_tithi sun_long moon_long = (1, 0) := by
  obtain ⟨k, hk⟩ := h
  have hdiv : (moon_long - sun_long) / 360 = (k : ℚ) := by rw [hk]; ring
  have hfloor : ratFloor ((moon_long - sun_long) / 360) = k := by
    rw [hdiv, ratFloor_eq, Int.floor_intCast]
  have hmod : pyMod (moon_long - sun_long) 360 = 0 := by
    rw [pyMod, hfloor, hk]; ring
  have hzero : pyInt 0 = 0 := by with_unfolding_all decide
  simp only [compute_tithi, hmod, zero_div, hzero]
  norm_num [Prod.ext_iff]

/-- C7 witness: the theorem applied at sun 0, moon 720 (= 2 × 360). -/
theorem tithi_at_new_moon_witness :
    (∃ k : ℤ, (720 : ℚ) - 0 = 360 * k) ∧ compute_tithi 0 720 = (1, 0) :=
  ⟨⟨2, by norm_num⟩, tithi_at_new_moon 0 720 ⟨2, by norm_num⟩⟩

/-- C8: `compute_hora` always returns exactly 12 intervals; consecutive
intervals share endpoints; the planet of the (i+1)-th hora is
`planets[i % 7]`; the first hora is ruled by the Sun. -/
theorem compute_hora_structure (sunrise sunset : ℚ) :
    (compute_hora sunrise sunset).length = 12 ∧
    (∀ i : ℕ, i < 11 → ((compute_hora sunrise sunset).getD i dHora).stop
        = ((compute_hora sunrise sunset).getD (i + 1) dHora).start) ∧
    (∀ i : ℕ, i < 12 → ((compute_hora sunrise sunset).getD i dHora).planet
        = planets.getD (i % 7) strDefault) ∧
    ((compute_hora sunrise sunset).getD 0 dHora).planet = ("Sun") := by
  refine ⟨rfl, ?_, ?_, rfl⟩
  · intro i hi
    interval_cases i <;> rfl
  · intro i hi
    interval_cases i <;> rfl

/-- C8 witness: the theorem applied at sunrise 0, sunset 12, horas 3/4
and 9. -/
theorem compute_hora_structure_witness :
    ((compute_hora 0 12).getD 3 dHora).stop = ((compute_hora 0 12).getD 4 dHora).start ∧
    ((compute_hora 0 12).getD 9 dHora).planet = planets.getD (9 % 7) strDefault :=
  ⟨(compute_hora_structure 0 12).2.1 3 (by decide),
   (compute_hora_structure 0 12).2.2.1 9 (by decide)⟩

/-- C9: for every weekday, the three weekday-table selections for Rahu
Kalam, Yama Gandam and Gulikai Kalam are pairwise distinct time windows. -/
theorem ryg_selections_pairwise_distinct (w : Fin 7) :
    rahu_periods.getD w.val (0, 0) ≠ yama_periods.getD w.val (0, 0) ∧
    rahu_periods.getD w.val (0, 0) ≠ gulikai_periods.getD w.val (0, 0) ∧
    yama_periods.getD w.val (0, 0) ≠ gulikai_periods.getD w.val (0, 0) := by
  fin_cases w <;> with_unfolding_all decide

/-- C10: the rule evaluator never raises.  An atomic condition that is
not a special-period name and whose field part is absent or not one of the
five known fields evaluates to `false`, and a failure of the underlying
panchangam computation is caught by `evaluate_rule` and yields `false`. -/
theorem rule_evaluation_is_total_and_silent (condition : List Char)
    (p : Panchangam) (weekday : ℕ) (err : String)
    (hspecial : special_period_names.contains (pyStrip condition) = false)
    (hfield : (pyStrip condition).contains '=' = false ∨
      pyStrip (splitOnceLeft (pyStrip condition) '=') ∉ known_field_names) :
    evaluate_atomic_condition condition p weekday = false ∧
    evaluate_rule (Except.error err) condition weekday = false := by
  refine ⟨?_, rfl⟩
  simp only [evaluate_atomic_condition, hspecial, Bool.cond_false]
  rcases hfield with heq | hnot
  · simp only [heq, Bool.cond_false]
  · simp only [known_field_names, List.mem_cons, List.mem_singleton,
      List.not_mem_nil, or_false, not_or] at hnot
    obtain ⟨h1, h2, h3, h4, h5⟩ := hnot
    cases hc : (pyStrip condition).contains '=' with
    | false => simp only [hc, Bool.cond_false]
    | true =>
      simp only [hc, Bool.cond_true, beq_eq_false_iff_ne.mpr h1,
        beq_eq_false_iff_ne.mpr h2, beq_eq_false_iff_ne.mpr h3,
        beq_eq_false_iff_ne.mpr h4, beq_eq_false_iff_ne.mpr h5, Bool.cond_false]

/-- C10 witness: the theorem applied to the unknown-field atom
`moon=full` against a concrete day and a failing panchangam computation. -/
theorem rule_evaluation_is_total_and_silent_witness :
    (special_period_names.contains (pyStrip (("moon=full").data)) = false ∧
      pyStrip (splitOnceLeft (pyStrip (("moon=full").data)) '=') ∉ known_field_names) ∧
    evaluate_atomic_condition (("moon=full").data) sample_day 0 = false ∧
    evaluate_rule (Except.error ("boom")) (("moon=full").data) 0 = false :=
  ⟨⟨by decide, by decide⟩,
    rule_evaluation_is_total_and_silent (("moon=full").data) sample_day 0 ("boom")
      (by decide) (Or.inr (by decide))⟩

end Astroo
